import Mathlib

/-!
Verification development for the `nhs` minimal HTTP/1.1 server.
The repository contains two variants of the server:

* `src/unnamed/part_000` — the byte-driven state-machine variant
  (namespace `nek` in C++): an incremental request state machine
  (`request::parse_and_build`), a response builder whose `send` emits
  `Content-Length`/`Content-Type` only for non-empty bodies, and a socket
  wrapper with `logic_error` guards on `listen`/`accept`/`recv`.
* `src/main.cpp` — the buffer-splitting variant: `request::parse` splits one
  assembled buffer on `\r\n\r\n`, lower-cases method/protocol but stores
  header names verbatim, derives `hostname` from the `Host` header, and its
  `response::send` always emits `Content-Length`.

Both variants are embedded below over `Str := List Char`; machine strings
are modelled as character lists, `std::unordered_map` as an association
list in insertion order (its `insert`/`emplace` never overwrite an existing
key, which the model `assocInsert` mirrors; `operator[]` of a missing key
default-inserts the empty value, mirrored where it occurs).
-/

set_option autoImplicit false

abbrev Str := List Char

/-- C `tolower` in the default locale: maps `A`-`Z` to `a`-`z`, leaves every
other byte unchanged. -/
def ctolower (c : Char) : Char :=
  if 'A' ≤ c ∧ c ≤ 'Z' then Char.ofNat (c.toNat + 32) else c

/-- First value bound to `key` in an association list (the lookup semantics
of `std::unordered_map::find` / `at`). -/
def assocLookup : List (Str × Str) → Str → Option Str
  | [], _ => none
  | (k, v) :: rest, key => if k = key then some v else assocLookup rest key

/-- `std::unordered_map::insert` / `emplace`: inserts only when the key is
absent; an existing binding is never overwritten. -/
def assocInsert (m : List (Str × Str)) (kv : Str × Str) : List (Str × Str) :=
  if (assocLookup m kv.1).isSome then m else m ++ [kv]

/-- `std::unordered_map::operator[] = value`: overwrites an existing binding,
inserts otherwise. -/
def assocSet : List (Str × Str) → Str → Str → List (Str × Str)
  | [], key, value => [(key, value)]
  | (k, v) :: rest, key, value =>
    if k = key then (k, value) :: rest else (k, v) :: assocSet rest key value

/-- Boolean prefix test on character lists. -/
def strHasPrefix : Str → Str → Bool
  | [], _ => true
  | _ :: _, [] => false
  | p :: ps, s :: ss => p == s && strHasPrefix ps ss

/-- Index of the first occurrence of `pat` inside `s`
(`std::search`; `none` when `pat` does not occur). -/
def firstIndexOfSub (pat : Str) : Str → Option Nat
  | [] => if strHasPrefix pat [] then some 0 else none
  | c :: tl =>
    if strHasPrefix pat (c :: tl) then some 0
    else (firstIndexOfSub pat tl).map (· + 1)

/-- Substring occurrence test. -/
def containsSub (pat s : Str) : Bool := (firstIndexOfSub pat s).isSome

/-- Decimal rendering of a C++ `int` as `std::ostream` prints it. -/
def intToStr (i : Int) : Str :=
  if i < 0 then '-' :: Nat.toDigits 10 i.natAbs else Nat.toDigits 10 i.natAbs

namespace nek

/-- States of `enum class parse_state` in `src/unnamed/part_000`. -/
inductive ParseState where
  | method
  | path
  | query
  | protocol
  | http_version
  | header_key
  | header_value
  | body
  | cr
  | crlf
  | crlfcr
  | done
  | invalid
deriving DecidableEq

/-- Member fields of `class request` in `src/unnamed/part_000`.
The pending header pair `header_buffer` is NOT here: in the source it is a
local variable of `parse_and_build`, constructed afresh on every call. -/
structure Request where
  headers : List (Str × Str)
  method : Str
  original_url : Str
  path : Str
  protocol : Str
  hostname : Str
  body : Str
  http_version : Str
  state : ParseState
deriving DecidableEq

/-- A default-constructed `request`: every string empty, map empty,
`state_ = parse_state::method`. -/
def initRequest : Request :=
  { headers := [], method := [], original_url := [], path := [], protocol := []
    hostname := [], body := [], http_version := [], state := ParseState.method }

/-- One iteration of the `switch` in `request::parse_and_build`
(`src/unnamed/part_000` lines 144-256): consumes the byte `c` in the current
state, threading the local `header_buffer` pair `hb` alongside the member
fields. -/
def stepByte (r : Request) (hb : Str × Str) (c : Char) : Request × (Str × Str) :=
  match r.state with
  | ParseState.method =>
    if c = ' ' then ({ r with state := ParseState.path }, hb)
    else ({ r with method := r.method ++ [c] }, hb)
  | ParseState.path =>
    if c = ' ' then
      ({ r with state := ParseState.protocol, original_url := r.path }, hb)
    else if c = '?' then ({ r with state := ParseState.query }, hb)
    else ({ r with path := r.path ++ [c] }, hb)
  | ParseState.query =>
    if c = ' ' then
      ({ r with state := ParseState.protocol, original_url := r.path }, hb)
    else (r, hb)
  | ParseState.protocol =>
    if c = '/' then ({ r with state := ParseState.http_version }, hb)
    else ({ r with protocol := r.protocol ++ [c] }, hb)
  | ParseState.http_version =>
    if c = '\r' then ({ r with state := ParseState.cr }, hb)
    else ({ r with http_version := r.http_version ++ [c] }, hb)
  | ParseState.header_key =>
    if c = ':' then ({ r with state := ParseState.header_value }, hb)
    else (r, (hb.1 ++ [ctolower c], hb.2))
  | ParseState.header_value =>
    if c = ' ' ∧ hb.2 = [] then (r, hb)
    else if c = '\r' then
      ({ r with headers := assocInsert r.headers hb, state := ParseState.cr },
        ([], []))
    else (r, (hb.1, hb.2 ++ [c]))
  | ParseState.body => ({ r with body := r.body ++ [c] }, hb)
  | ParseState.cr =>
    if c = '\n' then ({ r with state := ParseState.crlf }, hb)
    else ({ r with state := ParseState.invalid }, hb)
  | ParseState.crlf =>
    if c = '\r' then ({ r with state := ParseState.crlfcr }, hb)
    else ({ r with state := ParseState.header_key }, (hb.1 ++ [ctolower c], hb.2))
  | ParseState.crlfcr =>
    if c = '\n' then ({ r with state := ParseState.done }, hb)
    else ({ r with state := ParseState.invalid }, hb)
  | ParseState.done => ({ r with state := ParseState.done }, hb)
  | ParseState.invalid => (r, hb)

/-- The `for` loop of `parse_and_build` over a byte chunk, starting from an
arbitrary (request, header_buffer) pair. -/
def runBytes (p : Request × (Str × Str)) (buf : Str) : Request × (Str × Str) :=
  buf.foldl (fun q c => stepByte q.1 q.2 c) p

/-- `request::parse_and_build(buffer, recv_size)`: the local
`std::pair<std::string, std::string> header_buffer` starts empty on every
call and is discarded when the call returns; only the member fields survive. -/
def parse_and_build (r : Request) (buf : Str) : Request :=
  (runBytes (r, ([], [])) buf).1

/-- Done-request handling in `server::listen` (`src/unnamed/part_000`
lines 409-412): `req.hostname_ = "localhost";` — the hostname is hard-coded,
the `Host` header is not consulted (`TODO` in the source). -/
def finalizeHostname (r : Request) : Request :=
  { r with hostname := ("localhost".data) }

/-- Lookup in the static `int → std::string` status table. -/
def statusLookup : List (Int × Str) → Int → Option Str
  | [], _ => none
  | (k, v) :: rest, key => if k = key then some v else statusLookup rest key

/-- `response::default_status_messages` (`src/unnamed/part_000` lines
362-365; `src/main.cpp` lines 276-279 define the identical table). -/
def default_status_messages : List (Int × Str) :=
  [(200, ("OK".data)), (400, ("Bad Request".data)), (404, ("Not Found".data))]

/-- Member fields of `class response`; the bound request (whose protocol and
version feed the status line) is passed to `send` explicitly here. -/
structure Response where
  headers : List (Str × Str)
  status : Int
  status_message : Str
deriving DecidableEq

/-- A freshly constructed `response`: `status_ = 200`,
`status_message_ = ""`, empty header map. -/
def initResponse : Response :=
  { headers := [], status := 200, status_message := [] }

/-- `response::set_header` in `src/unnamed/part_000` (lines 312-318).
The source calls `lower_header.reserve(header.size())` — which changes
capacity, never size — and then writes the `tolower`-transformed characters
through `lower_header.begin()`. Those writes land past the end of a
zero-length `std::string` (undefined behaviour in ISO C++; with the usual
library implementations the size stays 0), so the key that `emplace` copies
into the map is the empty string, not the lower-cased header name. -/
def Response.set_header (r : Response) (header value : Str) : Response :=
  let lower_header : Str := []
  { r with headers := assocInsert r.headers (lower_header, value) }

/-- `response::get_header` in `src/unnamed/part_000` (lines 320-326): the
same reserve-without-resize slip leaves the lookup key empty, so
`headers_.at(lower_header)` consults the empty-string key whatever name the
caller passed. `none` models the `std::out_of_range` thrown by `at`. -/
def Response.get_header (r : Response) (header : Str) : Option Str :=
  let lower_header : Str := []
  assocLookup r.headers lower_header

/-- `response::status(int)`. -/
def Response.set_status (r : Response) (status : Int) : Response :=
  { r with status := status }

/-- `response::status_message(std::string_view)`. -/
def Response.set_status_message (r : Response) (message : Str) : Response :=
  { r with status_message := message }

/-- The `message` local of `response::send` (lines 339-340): the override
when it is non-empty, otherwise `default_status_messages[status_]`, whose
`operator[]` yields the empty string for a code outside the table. -/
def Response.message (r : Response) : Str :=
  if r.status_message ≠ [] then r.status_message
  else (statusLookup default_status_messages r.status).getD []

/-- The header lines of the wire format, one `name: value\r\n` per stored
pair, in map iteration order (modelled as insertion order). -/
def headerLinesOf : List (Str × Str) → Str
  | [] => []
  | (k, v) :: rest => k ++ (": ".data) ++ v ++ ("\r\n".data) ++ headerLinesOf rest

/-- `response::send` in `src/unnamed/part_000` (lines 338-358): status line,
stored header lines, then — only when the body is non-empty —
`Content-Length` (exact byte count) and `Content-Type: text/html`, then
`Connection: Keep-Alive`, a blank line, and the body (appended only when
non-empty, which is the same bytes either way). -/
def Response.send (req : Request) (r : Response) (body : Str) : Str :=
  req.protocol ++ ('/' :: req.http_version) ++ (' ' :: intToStr r.status)
    ++ (' ' :: r.message) ++ ("\r\n".data)
    ++ headerLinesOf r.headers
    ++ (if body ≠ [] then
          ("Content-Length: ".data) ++ Nat.toDigits 10 body.length
            ++ ("\r\n".data) ++ ("Content-Type: text/html\r\n".data)
        else [])
    ++ ("Connection: Keep-Alive\r\n".data)
    ++ ("\r\n".data)
    ++ (if body ≠ [] then body else [])

/-- Member fields of `class socket` in `src/unnamed/part_000`: descriptors
start at 0, meaning "never created" / "never accepted". -/
structure SocketSt where
  sock : Int
  accepted_sock : Int
  port : Int
deriving DecidableEq

/-- A default-constructed socket for a port. -/
def mkSocket (port : Int) : SocketSt :=
  { sock := 0, accepted_sock := 0, port := port }

/-- The error outcomes of the socket operations: `std::logic_error` with its
message, or `std::system_error` tagged with the operation name it was
constructed with (the `send` overload passes no name). -/
inductive SockErr where
  | logicError (msg : Str)
  | systemError (op : Str)
deriving DecidableEq

/-- `socket::listen` (lines 72-79): `logic_error` when the listening
descriptor was never created, otherwise the OS result (`osOk`) decides
between success and a `system_error` named "listen". -/
def SocketSt.listen (s : SocketSt) (osOk : Bool) : Except SockErr Unit :=
  if s.sock = 0 then Except.error (SockErr.logicError ("socket is not created".data))
  else if osOk then Except.ok ()
  else Except.error (SockErr.systemError ("listen".data))

/-- `socket::accept` (lines 81-91): `logic_error` when the listening
descriptor was never created; otherwise the loop retries `EAGAIN` silently,
so `osResult` stands for the first non-`EAGAIN` outcome — positive yields an
accepted descriptor, otherwise a `system_error` named "accept". -/
def SocketSt.accept (s : SocketSt) (osResult : Int) : Except SockErr SocketSt :=
  if s.sock = 0 then Except.error (SockErr.logicError ("socket is not created".data))
  else if 0 < osResult then Except.ok { s with accepted_sock := osResult }
  else Except.error (SockErr.systemError ("accept".data))

/-- `socket::recv` (lines 93-105): `logic_error` when no peer was accepted;
a negative OS result is returned as-is under `EAGAIN` and otherwise raises a
`system_error` named "recv". -/
def SocketSt.recv (s : SocketSt) (osResult : Int) (eagain : Bool) :
    Except SockErr Int :=
  if s.accepted_sock = 0 then
    Except.error (SockErr.logicError ("socket is not accepted".data))
  else if osResult < 0 then
    if eagain then Except.ok osResult
    else Except.error (SockErr.systemError ("recv".data))
  else Except.ok osResult

/-- `socket::send` (lines 107-111): NO guard on the accepted descriptor —
the function goes straight to the OS write and only a negative OS result
raises an error, a `system_error` constructed without an operation name. -/
def SocketSt.send (s : SocketSt) (osResult : Int) : Except SockErr Unit :=
  if osResult < 0 then Except.error (SockErr.systemError [])
  else Except.ok ()

end nek

namespace nekMain

/-- Member fields of `class request` in `src/main.cpp`. -/
structure RequestM where
  raw_request : Str
  headers : List (Str × Str)
  method : Str
  original_url : Str
  path : Str
  protocol : Str
  hostname : Str
  body : Str
  http_version : Str
deriving DecidableEq

/-- A request whose fields are still default-constructed (the early return
of `parse` on an empty raw buffer leaves them this way). -/
def defaultFieldsM (raw : Str) : RequestM :=
  { raw_request := raw, headers := [], method := [], original_url := []
    path := [], protocol := [], hostname := [], body := [], http_version := [] }

/-- The header-parsing `while` loop of `request::parse` (`src/main.cpp`
lines 166-178), over the region between the end of the request line and the
`\r\n\r\n` delimiter. Each line is split at its first `:`; the value starts
two characters later (the source skips exactly one character after the
colon); `none` models the thrown "key end not found". Pairs are `emplace`d:
the first occurrence of a key wins. -/
def parseHeaderBlockGo (fuel : Nat) (acc : List (Str × Str)) (block : Str) :
    Option (List (Str × Str)) :=
  match block with
  | [] => some acc
  | _ :: _ =>
    match fuel with
    | 0 => none
    | fuel + 1 =>
      let le := (firstIndexOfSub (("\r\n").data) block).getD block.length
      let line := block.take le
      let ke := (line.findIdx? (· = ':')).getD line.length
      if ke = line.length then none
      else
        parseHeaderBlockGo fuel (assocInsert acc (line.take ke, line.drop (ke + 2)))
          (block.drop (le + 2))

/-- Entry point of the loop. The fuel bounds the number of iterations;
`block.length` always suffices because every iteration drops at least two
characters of a non-empty block, so the fuel-exhausted branch above is
unreachable from here. -/
def parseHeaderBlock (acc : List (Str × Str)) (block : Str) :
    Option (List (Str × Str)) :=
  parseHeaderBlockGo block.length acc block

/-- `headers_["Host"]` read during `parse` (`src/main.cpp` line 179):
`operator[]` yields the stored value, or the empty string for an absent key. -/
def hostValueOf (hdrs : List (Str × Str)) : Str :=
  (assocLookup hdrs (("Host").data)).getD []

/-- The side effect of that same `operator[]`: an absent `Host` key is
default-inserted into the map with an empty value. -/
def withHostInserted (hdrs : List (Str × Str)) : List (Str × Str) :=
  if (assocLookup hdrs (("Host").data)).isSome then hdrs
  else hdrs ++ [((("Host").data), [])]

/-- `hostname_` as `parse` computes it (`src/main.cpp` lines 179-181): the
`Host` value up to the first `:`. -/
def hostnameFrom (hdrs : List (Str × Str)) : Str :=
  (hostValueOf hdrs).takeWhile (· ≠ ':')

/-- End of the request line: index of the first `\r\n` before the
`\r\n\r\n` delimiter at `he`, or `he` itself when there is none
(`std::search` returns the end of its range). -/
def lineEndOf (raw : Str) (he : Nat) : Nat :=
  (firstIndexOfSub (("\r\n").data) (raw.take he)).getD he

/-- The header region of the raw buffer: from just after the request line's
`\r\n` up to the `\r\n\r\n` delimiter. -/
def blockOf (raw : Str) (he : Nat) : Str :=
  (raw.take he).drop (lineEndOf raw he + 2)

/-- Field assembly of `request::parse` (`src/main.cpp` lines 139-181) once
the delimiter position `he` and the parsed header pairs `hdrs` are known:
the request line is cut at spaces, method and protocol lower-cased in
place, the query cut from `path` at the first `?`, the body is everything
after the delimiter, and `hostname` comes from the `Host` header. -/
def buildM (raw : Str) (he : Nat) (hdrs : List (Str × Str)) : RequestM :=
  let request_line := raw.take (lineEndOf raw he)
  let mi := (request_line.findIdx? (· = ' ')).getD request_line.length
  let rest1 := request_line.drop (mi + 1)
  let oe := (rest1.findIdx? (· = ' ')).getD rest1.length
  let original_url := rest1.take oe
  let rest2 := rest1.drop (oe + 1)
  let pe := (rest2.findIdx? (· = '/')).getD rest2.length
  { raw_request := raw
    headers := withHostInserted hdrs
    method := (request_line.take mi).map ctolower
    original_url := original_url
    path := original_url.takeWhile (· ≠ '?')
    protocol := (rest2.take pe).map ctolower
    hostname := hostnameFrom hdrs
    body := raw.drop (he + 4)
    http_version := rest2.drop (pe + 1) }

/-- `request::parse` in `src/main.cpp` (lines 127-182): early return on an
empty buffer; split on the first `\r\n\r\n` (`none` models the thrown
"there is not delimiter in the raw request"); then header parsing and field
assembly. -/
def parse (raw : Str) : Option RequestM :=
  if raw = [] then some (defaultFieldsM raw)
  else
    match firstIndexOfSub (("\r\n\r\n").data) raw with
    | none => none
    | some he =>
      match parseHeaderBlock [] (blockOf raw he) with
      | none => none
      | some hdrs => some (buildM raw he hdrs)

/-- Member fields of `class response` in `src/main.cpp`. -/
structure ResponseM where
  headers : List (Str × Str)
  status : Int
  status_message : Str
deriving DecidableEq

/-- A freshly constructed `response` of the `main.cpp` variant. -/
def initResponseM : ResponseM :=
  { headers := [], status := 200, status_message := [] }

/-- `response::set_header` in `src/main.cpp` (lines 239-241):
`headers_[header] = value` — the name is stored verbatim, no case
normalization, and an existing binding is overwritten. -/
def ResponseM.set_header (r : ResponseM) (header value : Str) : ResponseM :=
  { r with headers := assocSet r.headers header value }

/-- `response::get_header` in `src/main.cpp` (lines 243-245): verbatim,
case-sensitive lookup; `none` models the `std::out_of_range` of `at`. -/
def ResponseM.get_header (r : ResponseM) (header : Str) : Option Str :=
  assocLookup r.headers header

/-- The `message` local of the `main.cpp` `response::send` (lines 258-259),
identical in shape to the state-machine variant's. -/
def ResponseM.message (r : ResponseM) : Str :=
  if r.status_message ≠ [] then r.status_message
  else (nek.statusLookup nek.default_status_messages r.status).getD []

/-- `response::send` in `src/main.cpp` (lines 257-272): unlike the
state-machine variant, `Content-Length` and `Content-Type` are emitted
UNCONDITIONALLY — also for an empty body, as `Content-Length: 0`. -/
def ResponseM.send (req : RequestM) (r : ResponseM) (body : Str) : Str :=
  req.protocol ++ ('/' :: req.http_version) ++ (' ' :: intToStr r.status)
    ++ (' ' :: r.message) ++ ("\r\n".data)
    ++ nek.headerLinesOf r.headers
    ++ ("Content-Length: ".data) ++ Nat.toDigits 10 body.length
    ++ ("\r\n".data)
    ++ ("Content-Type: text/html\r\n".data)
    ++ ("Connection: Keep-Alive\r\n".data)
    ++ ("\r\n".data)
    ++ body

end nekMain

namespace nek

@[simp] theorem runBytes_nil (p : Request × (Str × Str)) : runBytes p [] = p := rfl

@[simp] theorem runBytes_cons (p : Request × (Str × Str)) (c : Char) (cs : Str) :
    runBytes p (c :: cs) = runBytes (stepByte p.1 p.2 c) cs := rfl

theorem runBytes_append (p : Request × (Str × Str)) (a b : Str) :
    runBytes p (a ++ b) = runBytes (runBytes p a) b :=
  List.foldl_append _ _ a b

/-- In the `done` state the step leaves the whole parser unchanged. -/
theorem stepByte_done (r : Request) (hb : Str × Str) (c : Char)
    (h : r.state = ParseState.done) : stepByte r hb c = (r, hb) := by
  obtain ⟨f1, f2, f3, f4, f5, f6, f7, f8, st⟩ := r
  cases h
  rfl

/-- In the `invalid` state the step leaves the whole parser unchanged. -/
theorem stepByte_invalid (r : Request) (hb : Str × Str) (c : Char)
    (h : r.state = ParseState.invalid) : stepByte r hb c = (r, hb) := by
  obtain ⟨f1, f2, f3, f4, f5, f6, f7, f8, st⟩ := r
  cases h
  rfl

/-- Terminal absorption: from `done` or `invalid`, any further byte stream
leaves the request fields, the state and the pending pair unchanged. -/
theorem runBytes_terminal (bs : Str) (r : Request) (hb : Str × Str)
    (h : r.state = ParseState.done ∨ r.state = ParseState.invalid) :
    runBytes (r, hb) bs = (r, hb) := by
  induction bs with
  | nil => rfl
  | cons c cs ih =>
    rw [runBytes_cons]
    rcases h with h | h
    · rw [stepByte_done r hb c h]; exact ih
    · rw [stepByte_invalid r hb c h]; exact ih

/-- In `header_key`, a byte other than `:` only appends its lower-cased form
to the pending name. -/
theorem stepByte_key (r : Request) (hb : Str × Str) (c : Char)
    (h : r.state = ParseState.header_key) (hc : c ≠ ':') :
    stepByte r hb c = (r, (hb.1 ++ [ctolower c], hb.2)) := by
  obtain ⟨f1, f2, f3, f4, f5, f6, f7, f8, st⟩ := r
  cases h
  simp [stepByte, hc]

/-- Running a colon-free string in `header_key` appends its lower-cased
characters to the pending name and touches nothing else. -/
theorem runBytes_key (r : Request) (h : r.state = ParseState.header_key) :
    ∀ (ks : Str) (hb : Str × Str), (∀ c ∈ ks, c ≠ ':') →
      runBytes (r, hb) ks = (r, (hb.1 ++ ks.map ctolower, hb.2)) := by
  intro ks
  induction ks with
  | nil => intro hb _; simp
  | cons c cs ih =>
    intro hb hc
    rw [runBytes_cons]
    simp only [stepByte_key r hb c h (hc c (List.mem_cons_self c cs))]
    rw [ih _ (fun d hd => hc d (List.mem_cons_of_mem c hd))]
    simp

/-- In `header_value` with a non-empty pending value, a CR-free string is
appended to the pending value verbatim (the space skip only fires while the
value is still empty). -/
theorem runBytes_value_acc (r : Request) (h : r.state = ParseState.header_value) :
    ∀ (vs : Str) (hb1 acc : Str), acc ≠ [] → (∀ c ∈ vs, c ≠ '\r') →
      runBytes (r, (hb1, acc)) vs = (r, (hb1, acc ++ vs)) := by
  intro vs
  induction vs with
  | nil => intro hb1 acc _ _; simp
  | cons c cs ih =>
    intro hb1 acc hacc hv
    rw [runBytes_cons]
    have hcr : c ≠ '\r' := hv c (List.mem_cons_self c cs)
    have hstep : stepByte r (hb1, acc) c = (r, (hb1, acc ++ [c])) := by
      obtain ⟨f1, f2, f3, f4, f5, f6, f7, f8, st⟩ := r
      cases h
      simp [stepByte, hacc, hcr]
    rw [hstep, ih _ _ (by simp) (fun d hd => hv d (List.mem_cons_of_mem c hd))]
    simp

/-- In `header_value` with an empty pending value, a CR-free string ends up
in the pending value with its leading spaces stripped. -/
theorem runBytes_value (r : Request) (h : r.state = ParseState.header_value) :
    ∀ (vs : Str) (hb1 : Str), (∀ c ∈ vs, c ≠ '\r') →
      runBytes (r, (hb1, [])) vs = (r, (hb1, vs.dropWhile (· = ' '))) := by
  intro vs
  induction vs with
  | nil => intro hb1 _; simp
  | cons c cs ih =>
    intro hb1 hv
    have hcr : c ≠ '\r' := hv c (List.mem_cons_self c cs)
    by_cases hsp : c = ' '
    · subst hsp
      rw [runBytes_cons]
      have hstep : stepByte r (hb1, []) ' ' = (r, (hb1, [])) := by
        obtain ⟨f1, f2, f3, f4, f5, f6, f7, f8, st⟩ := r
        cases h
        simp [stepByte]
      rw [hstep, ih hb1 (fun d hd => hv d (List.mem_cons_of_mem _ hd))]
      simp [List.dropWhile_cons]
    · rw [runBytes_cons]
      have hstep : stepByte r (hb1, []) c = (r, (hb1, [c])) := by
        obtain ⟨f1, f2, f3, f4, f5, f6, f7, f8, st⟩ := r
        cases h
        simp [stepByte, hsp, hcr]
      rw [hstep,
        runBytes_value_acc r h cs hb1 [c] (by simp)
          (fun d hd => hv d (List.mem_cons_of_mem c hd))]
      simp [List.dropWhile_cons, hsp]

/-- Consuming a whole header line `name ':' value CR` from the `crlf` state
with an empty pending pair commits `(tolower name, value-minus-leading-
spaces)` into the header map exactly when the final CR is consumed, and ends
in state `cr` with the pending pair cleared. -/
theorem runBytes_header_line (r : Request) (h : r.state = ParseState.crlf)
    (k v : Str) (hk0 : k ≠ []) (hkc : ∀ c ∈ k, c ≠ ':') (hkr : ∀ c ∈ k, c ≠ '\r')
    (hvr : ∀ c ∈ v, c ≠ '\r') :
    runBytes (r, ([], [])) (k ++ (':' :: (v ++ ['\r']))) =
      ({ r with
          headers := assocInsert r.headers (k.map ctolower, v.dropWhile (· = ' '))
          state := ParseState.cr }, ([], [])) := by
  cases k with
  | nil => exact absurd rfl hk0
  | cons k0 kt =>
    rw [List.cons_append, runBytes_cons]
    have hstep0 : stepByte r ([], []) k0 =
        ({ r with state := ParseState.header_key }, ([ctolower k0], [])) := by
      obtain ⟨f1, f2, f3, f4, f5, f6, f7, f8, st⟩ := r
      cases h
      simp [stepByte, hkr k0 (List.mem_cons_self k0 kt)]
    rw [hstep0]
    have hkey : ({ r with state := ParseState.header_key } : Request).state
        = ParseState.header_key := rfl
    rw [runBytes_append,
      runBytes_key _ hkey kt _ (fun d hd => hkc d (List.mem_cons_of_mem k0 hd))]
    rw [runBytes_cons]
    have hstep1 : stepByte { r with state := ParseState.header_key }
        ([ctolower k0] ++ kt.map ctolower, []) ':'
        = ({ r with state := ParseState.header_value },
            ([ctolower k0] ++ kt.map ctolower, [])) := by
      simp [stepByte]
    rw [hstep1]
    have hval : ({ r with state := ParseState.header_value } : Request).state
        = ParseState.header_value := rfl
    rw [runBytes_append, runBytes_value _ hval v _ hvr, runBytes_cons]
    have hstep2 : stepByte { r with state := ParseState.header_value }
        ([ctolower k0] ++ kt.map ctolower, v.dropWhile (· = ' ')) '\r'
        = ({ r with
              headers := assocInsert r.headers
                (ctolower k0 :: kt.map ctolower, v.dropWhile (· = ' '))
              state := ParseState.cr }, ([], [])) := by
      simp [stepByte]
    rw [hstep2]
    simp

end nek

theorem strHasPrefix_self_append (p b : Str) : strHasPrefix p (p ++ b) = true := by
  induction p with
  | nil => rfl
  | cons c cs ih => simp [strHasPrefix, ih]

theorem firstIndexOfSub_isSome_of_prefix (pat s : Str)
    (h : strHasPrefix pat s = true) : (firstIndexOfSub pat s).isSome = true := by
  cases s <;> simp [firstIndexOfSub, h]

theorem firstIndexOfSub_isSome_cons (pat : Str) (c : Char) (tl : Str)
    (h : (firstIndexOfSub pat tl).isSome = true) :
    (firstIndexOfSub pat (c :: tl)).isSome = true := by
  simp only [firstIndexOfSub]
  by_cases hpre : strHasPrefix pat (c :: tl) = true
  · simp [hpre]
  · simp only [hpre, if_false]
    simpa using h

/-- A string that literally contains `a ++ pat ++ b` contains `pat`. -/
theorem containsSub_of_append (a pat b : Str) :
    containsSub pat (a ++ (pat ++ b)) = true := by
  induction a with
  | nil =>
    exact firstIndexOfSub_isSome_of_prefix pat _ (strHasPrefix_self_append pat b)
  | cons c cs ih =>
    exact firstIndexOfSub_isSome_cons pat c _ ih

theorem assocLookup_append_of_none (m : List (Str × Str)) (k v : Str)
    (h : assocLookup m k = none) :
    assocLookup (m ++ [(k, v)]) k = some v := by
  induction m with
  | nil => simp [assocLookup]
  | cons kv rest ih =>
    obtain ⟨k1, v1⟩ := kv
    by_cases hk : k1 = k
    · simp [assocLookup, hk] at h
    · rw [List.cons_append]
      simp only [assocLookup, hk, if_false] at h ⊢
      exact ih h

/-- Inserting via `unordered_map::insert`/`emplace` never changes the value
already bound to the key. -/
theorem assocInsert_keeps_first (m : List (Str × Str)) (k v v0 : Str)
    (h : assocLookup m k = some v0) :
    assocLookup (assocInsert m (k, v)) k = some v0 := by
  simp [assocInsert, h]

theorem hostname_lookup_withHost (hdrs : List (Str × Str)) :
    ((assocLookup (nekMain.withHostInserted hdrs) (("Host").data)).getD
      []).takeWhile (· ≠ ':') = nekMain.hostnameFrom hdrs := by
  unfold nekMain.withHostInserted nekMain.hostnameFrom nekMain.hostValueOf
  cases hl : assocLookup hdrs (("Host").data) with
  | some v => simp [hl]
  | none => simp [hl, assocLookup_append_of_none hdrs _ [] hl]

/-- Whatever raw bytes `request::parse` of the `main.cpp` variant accepts,
the resulting `hostname` is the stored `Host` header's value cut at the
first `:`. -/
theorem mainParse_hostname (raw : Str) (r : nekMain.RequestM)
    (h : nekMain.parse raw = some r) :
    r.hostname
      = ((assocLookup r.headers (("Host").data)).getD []).takeWhile (· ≠ ':') := by
  unfold nekMain.parse at h
  by_cases h0 : raw = []
  · rw [if_pos h0] at h
    obtain rfl := Option.some.inj h
    rfl
  · rw [if_neg h0] at h
    cases hfi : firstIndexOfSub (("\r\n\r\n").data) raw with
    | none => rw [hfi] at h; simp at h
    | some he =>
      rw [hfi] at h
      simp only [] at h
      cases hph : nekMain.parseHeaderBlock [] (nekMain.blockOf raw he) with
      | none => rw [hph] at h; simp at h
      | some hdrs =>
        rw [hph] at h
        obtain rfl := Option.some.inj h
        show (nekMain.buildM raw he hdrs).hostname = _
        have hb : (nekMain.buildM raw he hdrs).hostname
            = nekMain.hostnameFrom hdrs := rfl
        have hh : (nekMain.buildM raw he hdrs).headers
            = nekMain.withHostInserted hdrs := rfl
        rw [hb, hh]
        exact (hostname_lookup_withHost hdrs).symm

/-- A request of the state-machine variant that finished parsing a plain
`HTTP/1.1` request line, used as the bound request of sample responses. -/
def sampleReq : nek.Request :=
  { nek.initRequest with
      protocol := ("HTTP").data
      http_version := ("1.1").data
      state := nek.ParseState.done }

/-- A request of the state-machine variant sitting at the start of a header
line (state `crlf`, as after consuming the request line's CRLF). -/
def crlfFix : nek.Request :=
  { nek.initRequest with state := nek.ParseState.crlf }

/-- Discriminates the `std::logic_error` outcome from every other outcome of
a socket operation. -/
def isLogicError {α : Type} : Except nek.SockErr α → Bool
  | Except.error (nek.SockErr.logicError _) => true
  | _ => false

/-- C1: the claim asserts chunk-invariance of `request::parse_and_build`
because "all parsing state including the pending header-name/value buffer
persists across calls". It does not: `header_buffer` is a local variable of
`parse_and_build`, reset on every call, so splitting a valid request into
two chunks inside a header name loses the name's first chunk — here the
chunked parse stores the header under `st` while the one-shot parse of the
same bytes stores it under `host`. -/
theorem C1_chunked_parse_loses_header_prefix :
    (nek.parse_and_build (nek.parse_and_build nek.initRequest
        (("GET / HTTP/1.1\r\nHo").data)) (("st: x\r\n\r\n").data)).headers
      = [((("st").data), ("x").data)]
  ∧ (nek.parse_and_build nek.initRequest
        ((("GET / HTTP/1.1\r\nHo").data) ++ (("st: x\r\n\r\n").data))).headers
      = [((("host").data), ("x").data)]
  ∧ ((("st").data) : Str) ≠ (("host").data) := by decide

/-- C2: `done` and `invalid` are terminal — from either state, any further
byte stream leaves the state and every structured field (and even the
pending pair) unchanged — and in state `cr` a byte other than `\n` moves the
parser to `invalid` while changing no field. -/
theorem C2_terminal_states_absorb :
    (∀ (bs : Str) (r : nek.Request) (hb : Str × Str),
        r.state = nek.ParseState.done ∨ r.state = nek.ParseState.invalid →
        nek.runBytes (r, hb) bs = (r, hb))
  ∧ (∀ (r : nek.Request) (hb : Str × Str) (c : Char),
        r.state = nek.ParseState.cr → c ≠ '\n' →
        nek.stepByte r hb c = ({ r with state := nek.ParseState.invalid }, hb))
  ∧ (∀ (r : nek.Request) (hb : Str × Str) (c : Char),
        r.state = nek.ParseState.crlfcr → c ≠ '\n' →
        nek.stepByte r hb c = ({ r with state := nek.ParseState.invalid }, hb)) := by
  refine ⟨fun bs r hb h => nek.runBytes_terminal bs r hb h, ?_, ?_⟩
  · intro r hb c hcr hc
    obtain ⟨f1, f2, f3, f4, f5, f6, f7, f8, st⟩ := r
    cases hcr
    simp [nek.stepByte, hc]
  · intro r hb c hcr hc
    obtain ⟨f1, f2, f3, f4, f5, f6, f7, f8, st⟩ := r
    cases hcr
    simp [nek.stepByte, hc]

/-- Witness for C2 at concrete inputs: a `done` parser ignores `abc`, and a
parser in state `cr` fed `x` (not `\n`) turns `invalid` with no other
change. -/
theorem C2_terminal_states_absorb_witness :
    nek.runBytes ({ nek.initRequest with state := nek.ParseState.done }, ([], []))
        (("abc").data)
      = ({ nek.initRequest with state := nek.ParseState.done }, ([], []))
  ∧ nek.stepByte { nek.initRequest with state := nek.ParseState.cr } ([], []) 'x'
      = ({ nek.initRequest with state := nek.ParseState.invalid }, ([], []))
  ∧ nek.stepByte { nek.initRequest with state := nek.ParseState.crlfcr } ([], []) 'x'
      = ({ nek.initRequest with state := nek.ParseState.invalid }, ([], [])) :=
  ⟨C2_terminal_states_absorb.1 (("abc").data) _ _ (Or.inl rfl),
   C2_terminal_states_absorb.2.1 _ _ 'x' rfl (by decide),
   C2_terminal_states_absorb.2.2 _ _ 'x' rfl (by decide)⟩

/-- C3 counterexample: the claim quantifies over "every parsed request", but
`request::parse` of the `main.cpp` variant (cited by the claim) stores
header names verbatim: after parsing a request with a `Content-Type: x`
line, the lookup of `content-type` finds nothing while `Content-Type` does. -/
theorem C3_main_parse_keeps_name_case :
    ((nekMain.parse (("GET / HTTP/1.1\r\nContent-Type: x\r\n\r\n").data)).map
        (fun r => (assocLookup r.headers (("Content-Type").data),
                   assocLookup r.headers (("content-type").data))))
      = some (some (("x").data), none) := by decide

/-- C3 as amended (restricted to the state-machine parser
`request::parse_and_build`): consuming a header line from the start-of-line
state commits, exactly when the `\r` ending the value is consumed, the pair
(lower-cased name, value with leading spaces trimmed) into the header map. -/
theorem C3_header_lowercased_trimmed_committed :
    ∀ (r : nek.Request) (k v : Str), r.state = nek.ParseState.crlf →
      k ≠ [] → (∀ c ∈ k, c ≠ ':') → (∀ c ∈ k, c ≠ '\r') → (∀ c ∈ v, c ≠ '\r') →
      nek.runBytes (r, ([], [])) (k ++ (':' :: (v ++ ['\r']))) =
        ({ r with
            headers := assocInsert r.headers (k.map ctolower, v.dropWhile (· = ' '))
            state := nek.ParseState.cr }, ([], [])) :=
  fun r k v h hk0 hkc hkr hvr => nek.runBytes_header_line r h k v hk0 hkc hkr hvr

/-- Witness for C3: the input line `Content-Type: x/html\r` commits the pair
(`content-type`, `x/html`) — name lower-cased, leading space trimmed. -/
theorem C3_header_lowercased_trimmed_committed_witness :
    nek.runBytes (crlfFix, ([], []))
        ((("Content-Type").data) ++ (':' :: (((" x/html").data) ++ ['\r'])))
      = ({ crlfFix with
            headers := [((("content-type").data), (("x/html").data))]
            state := nek.ParseState.cr }, ([], [])) := by
  have h := C3_header_lowercased_trimmed_committed crlfFix (("Content-Type").data)
      ((" x/html").data) rfl (by decide) (by decide) (by decide) (by decide)
  exact h.trans (by decide)

/-- C4 counterexample: the claim's conjunction holds in neither variant. In
the state-machine variant the query is NOT kept in `original_target`
(`original_url_ = path_` with the query bytes dropped, `/* + query */` left
as a TODO), so `original_target` is `/foo`, not `/foo?x=1`; in the
`main.cpp` variant the method is lower-cased in place, so it is `get`, not
`GET`. -/
theorem C4_request_line_claim_fails :
    (nek.parse_and_build nek.initRequest
        (("GET /foo?x=1 HTTP/1.1\r\n").data)).original_url = ("/foo").data
  ∧ ((("/foo").data) : Str) ≠ ("/foo?x=1").data
  ∧ ((nekMain.parse (("GET /foo?x=1 HTTP/1.1\r\n\r\n").data)).map
        (fun r => r.method)) = some (("get").data)
  ∧ ((("get").data) : Str) ≠ ("GET").data := by decide

/-- C4 as amended: parsing `GET /foo?x=1 HTTP/1.1\r\n` with the
state-machine parser yields method `GET`, path `/foo`, protocol `HTTP`,
version `1.1`, and `original_target` equal to `/foo` (the query is discarded
from BOTH `path` and `original_target`); the `main.cpp` parser keeps the
query verbatim in `original_target` (`/foo?x=1`) but lower-cases method and
protocol to `get` / `http`. -/
theorem C4_request_line_fields :
    ((nek.parse_and_build nek.initRequest
        (("GET /foo?x=1 HTTP/1.1\r\n").data)).method = ("GET").data
      ∧ (nek.parse_and_build nek.initRequest
          (("GET /foo?x=1 HTTP/1.1\r\n").data)).path = ("/foo").data
      ∧ (nek.parse_and_build nek.initRequest
          (("GET /foo?x=1 HTTP/1.1\r\n").data)).protocol = ("HTTP").data
      ∧ (nek.parse_and_build nek.initRequest
          (("GET /foo?x=1 HTTP/1.1\r\n").data)).http_version = ("1.1").data
      ∧ (nek.parse_and_build nek.initRequest
          (("GET /foo?x=1 HTTP/1.1\r\n").data)).original_url = ("/foo").data)
  ∧ ((nekMain.parse (("GET /foo?x=1 HTTP/1.1\r\n\r\n").data)).map
        (fun r => (r.method, r.path, r.protocol, r.http_version, r.original_url))
      = some ((("get").data, ("/foo").data, ("http").data, ("1.1").data,
               ("/foo?x=1").data))) := by decide

/-- C5 counterexample: the claim also covers `response::send` of the
`main.cpp` variant (cited by the claim), which emits `Content-Length`
unconditionally — a response sent with an EMPTY body carries
`Content-Length: 0` on the wire. -/
theorem C5_main_send_content_length_on_empty_body :
    containsSub (("Content-Length: 0\r\n").data)
        (nekMain.ResponseM.send (nekMain.defaultFieldsM []) nekMain.initResponseM [])
      = true := by decide

/-- C5 as amended: in the state-machine variant, `send` with a non-empty
body always emits a `Content-Length` line carrying the exact byte length of
the body, and with an empty body emits no `Content-Length` at all; the
`main.cpp` variant's `send` emits the (correct-length) `Content-Length` line
for every body, the empty one included. -/
theorem C5_content_length_emission :
    (∀ (req : nek.Request) (r : nek.Response) (body : Str), body ≠ [] →
        containsSub ((("Content-Length: ").data) ++ Nat.toDigits 10 body.length
            ++ (("\r\n").data))
          (nek.Response.send req r body) = true)
  ∧ containsSub (("Content-Length").data)
      (nek.Response.send sampleReq nek.initResponse []) = false
  ∧ (∀ (req : nekMain.RequestM) (r : nekMain.ResponseM) (body : Str),
        containsSub ((("Content-Length: ").data) ++ Nat.toDigits 10 body.length
            ++ (("\r\n").data))
          (nekMain.ResponseM.send req r body) = true) := by
  refine ⟨?_, by decide, ?_⟩
  · intro req r body hb
    have hsend : nek.Response.send req r body
        = (req.protocol ++ ('/' :: req.http_version) ++ (' ' :: intToStr r.status)
            ++ (' ' :: r.message) ++ (("\r\n").data) ++ nek.headerLinesOf r.headers)
          ++ (((("Content-Length: ").data) ++ Nat.toDigits 10 body.length
                ++ (("\r\n").data))
              ++ ((("Content-Type: text/html\r\n").data)
                  ++ ((("Connection: Keep-Alive\r\n").data)
                      ++ ((("\r\n").data) ++ body)))) := by
      simp [nek.Response.send, hb, List.append_assoc]
    rw [hsend]
    exact containsSub_of_append _ _ _
  · intro req r body
    have hsend : nekMain.ResponseM.send req r body
        = (req.protocol ++ ('/' :: req.http_version) ++ (' ' :: intToStr r.status)
            ++ (' ' :: r.message) ++ (("\r\n").data) ++ nek.headerLinesOf r.headers)
          ++ (((("Content-Length: ").data) ++ Nat.toDigits 10 body.length
                ++ (("\r\n").data))
              ++ ((("Content-Type: text/html\r\n").data)
                  ++ ((("Connection: Keep-Alive\r\n").data)
                      ++ ((("\r\n").data) ++ body)))) := by
      simp [nekMain.ResponseM.send, List.append_assoc]
    rw [hsend]
    exact containsSub_of_append _ _ _

/-- Witness for C5 at a concrete two-byte body: the wire bytes contain
`Content-Length: 2`. -/
theorem C5_content_length_emission_witness :
    containsSub ((("Content-Length: ").data) ++ Nat.toDigits 10 (("hi").data).length
        ++ (("\r\n").data))
      (nek.Response.send sampleReq nek.initResponse (("hi").data)) = true :=
  C5_content_length_emission.1 sampleReq nek.initResponse (("hi").data) (by decide)

/-- C6 counterexample: the claim says that when an override was set the
message is exactly the supplied text; setting the override to the empty
string is a set override, yet `send` renders the table text (`OK` for the
default status 200), because the source selects on `!status_message_.empty()`,
not on whether an override was supplied. -/
theorem C6_empty_override_falls_back_to_table :
    nek.Response.message (nek.Response.set_status_message nek.initResponse [])
      = ("OK").data
  ∧ ((("OK").data) : Str) ≠ [] := by decide

/-- C6 as amended: a NON-empty override is rendered exactly as supplied; an
empty (or never-set) override selects from the static table — `200→OK`,
`400→Bad Request`, `404→Not Found`, and the empty string for every other
code — and a 404 response without an override renders `404 Not Found` in its
status line. -/
theorem C6_status_message_selection :
    (∀ r : nek.Response, r.status_message ≠ [] →
        nek.Response.message r = r.status_message)
  ∧ (∀ r : nek.Response, r.status_message = [] →
        nek.Response.message r
          = (nek.statusLookup nek.default_status_messages r.status).getD [])
  ∧ nek.statusLookup nek.default_status_messages 200 = some (("OK").data)
  ∧ nek.statusLookup nek.default_status_messages 400 = some (("Bad Request").data)
  ∧ nek.statusLookup nek.default_status_messages 404 = some (("Not Found").data)
  ∧ (∀ s : Int, s ≠ 200 → s ≠ 400 → s ≠ 404 →
        nek.statusLookup nek.default_status_messages s = none)
  ∧ containsSub ((" 404 Not Found\r\n").data)
      (nek.Response.send sampleReq (nek.Response.set_status nek.initResponse 404) [])
      = true := by
  refine ⟨?_, ?_, by decide, by decide, by decide, ?_, by decide⟩
  · intro r h
    simp [nek.Response.message, h]
  · intro r h
    simp [nek.Response.message, h]
  · intro s h1 h2 h3
    simp [nek.statusLookup, nek.default_status_messages,
      Ne.symm h1, Ne.symm h2, Ne.symm h3]

/-- Witness for C6: a non-empty override is rendered verbatim, the unset
override of a fresh response selects the table entry, and an out-of-table
code has no entry. -/
theorem C6_status_message_selection_witness :
    nek.Response.message (nek.Response.set_status_message nek.initResponse
        (("teapot").data)) = ("teapot").data
  ∧ nek.Response.message nek.initResponse
      = (nek.statusLookup nek.default_status_messages 200).getD []
  ∧ nek.statusLookup nek.default_status_messages 500 = none := by
  obtain ⟨h1, h2, _, _, _, h6, _⟩ := C6_status_message_selection
  exact ⟨h1 _ (by decide), h2 nek.initResponse rfl, h6 500 (by decide) (by decide)
    (by decide)⟩

/-- C7: the claim says `set_header` stores the lower-cased name and
`get_header` finds it under any casing. The code's `reserve`-without-resize
slip makes `set_header` store the pair under the EMPTY key instead, so the
lower-cased name is not in the map and `get_header` returns the stored value
for ANY argument (it also looks up the empty key) — here `X-Anything` finds
the value that was set for `Content-Type`. -/
theorem C7_set_header_stores_empty_key :
    (nek.Response.set_header nek.initResponse (("Content-Type").data)
        (("text/html").data)).headers
      = [([], ("text/html").data)]
  ∧ assocLookup (nek.Response.set_header nek.initResponse (("Content-Type").data)
        (("text/html").data)).headers (("content-type").data) = none
  ∧ nek.Response.get_header (nek.Response.set_header nek.initResponse
        (("Content-Type").data) (("text/html").data)) (("X-Anything").data)
      = some (("text/html").data) := by decide

/-- C8 counterexample: `socket::send` performs NO accepted-peer check —
called on a never-accepted socket it either succeeds outright (non-negative
OS result) or raises the unnamed `system_error` of a failed write, never a
`logic_error`. -/
theorem C8_send_before_accept_not_logic_error :
    nek.SocketSt.send (nek.mkSocket 3000) (-1)
      = Except.error (nek.SockErr.systemError [])
  ∧ isLogicError (nek.SocketSt.send (nek.mkSocket 3000) (-1)) = false
  ∧ nek.SocketSt.send (nek.mkSocket 3000) 1 = Except.ok () :=
  ⟨rfl, rfl, rfl⟩

/-- C8 as amended: `recv` fails with the `logic_error` "socket is not
accepted" whenever no peer was accepted, and `listen`/`accept` fail with
the `logic_error` "socket is not created" whenever the listening descriptor
was never created; `send`, however, never raises a `logic_error` — it has no
precondition check at all. -/
theorem C8_precondition_guards :
    (∀ (s : nek.SocketSt) (os : Int) (eg : Bool), s.accepted_sock = 0 →
        nek.SocketSt.recv s os eg
          = Except.error (nek.SockErr.logicError (("socket is not accepted").data)))
  ∧ (∀ (s : nek.SocketSt) (ok : Bool), s.sock = 0 →
        nek.SocketSt.listen s ok
          = Except.error (nek.SockErr.logicError (("socket is not created").data)))
  ∧ (∀ (s : nek.SocketSt) (os : Int), s.sock = 0 →
        nek.SocketSt.accept s os
          = Except.error (nek.SockErr.logicError (("socket is not created").data)))
  ∧ (∀ (s : nek.SocketSt) (os : Int), isLogicError (nek.SocketSt.send s os) = false) := by
  refine ⟨?_, ?_, ?_, ?_⟩
  · intro s os eg h
    simp [nek.SocketSt.recv, h]
  · intro s ok h
    simp [nek.SocketSt.listen, h]
  · intro s os h
    simp [nek.SocketSt.accept, h]
  · intro s os
    by_cases h : os < 0 <;> simp [nek.SocketSt.send, h, isLogicError]

/-- Witness for C8 on a freshly constructed socket (no descriptor, no peer):
`recv`, `listen` and `accept` raise their `logic_error`s, `send` does not. -/
theorem C8_precondition_guards_witness :
    nek.SocketSt.recv (nek.mkSocket 3000) 7 false
      = Except.error (nek.SockErr.logicError (("socket is not accepted").data))
  ∧ nek.SocketSt.listen (nek.mkSocket 3000) true
      = Except.error (nek.SockErr.logicError (("socket is not created").data))
  ∧ nek.SocketSt.accept (nek.mkSocket 3000) 5
      = Except.error (nek.SockErr.logicError (("socket is not created").data))
  ∧ isLogicError (nek.SocketSt.send (nek.mkSocket 3000) 5) = false := by
  obtain ⟨h1, h2, h3, h4⟩ := C8_precondition_guards
  exact ⟨h1 (nek.mkSocket 3000) 7 false rfl, h2 (nek.mkSocket 3000) true rfl,
    h3 (nek.mkSocket 3000) 5 rfl, h4 (nek.mkSocket 3000) 5⟩

/-- A raw request of the `main.cpp` wire shape carrying a `Host` header with
a port suffix. -/
def rawHost : Str := ("GET / HTTP/1.1\r\nHost: example.com:8080\r\n\r\n").data

/-- C9 counterexample: in the state-machine variant the accept loop sets
`hostname` to the hard-coded `localhost` (the `Host` header is a TODO), so a
fully parsed request whose `Host` header is `example.com:8080` gets hostname
`localhost`, not `example.com`. -/
theorem C9_hostname_hardcoded_localhost :
    (nek.finalizeHostname (nek.parse_and_build nek.initRequest rawHost)).hostname
      = ("localhost").data
  ∧ assocLookup (nek.parse_and_build nek.initRequest rawHost).headers
      (("host").data) = some (("example.com:8080").data)
  ∧ (nek.parse_and_build nek.initRequest rawHost).state = nek.ParseState.done
  ∧ ((("localhost").data) : Str) ≠ ("example.com").data := by decide

/-- C9 as amended: the `main.cpp` parser derives `hostname` from the
exactly-spelled `Host` header — the stored value cut at the first `:`
(empty when the header is absent) — while the state-machine variant always
sets `localhost` whatever the headers say. -/
theorem C9_hostname_policy :
    (∀ r : nek.Request, (nek.finalizeHostname r).hostname = ("localhost").data)
  ∧ (∀ (raw : Str) (r : nekMain.RequestM), nekMain.parse raw = some r →
        r.hostname
          = ((assocLookup r.headers (("Host").data)).getD []).takeWhile (· ≠ ':')) :=
  ⟨fun _ => rfl, mainParse_hostname⟩

/-- Witness for C9: the hard-coded hostname on a fresh request, and the
`Host`-derived hostname of the concrete request `rawHost`, whose parse
result is `buildM rawHost 38 [(Host, example.com:8080)]`. -/
theorem C9_hostname_policy_witness :
    (nek.finalizeHostname nek.initRequest).hostname = ("localhost").data
  ∧ (nekMain.buildM rawHost 38
        [((("Host").data), (("example.com:8080").data))]).hostname
      = ((assocLookup (nekMain.buildM rawHost 38
            [((("Host").data), (("example.com:8080").data))]).headers
          (("Host").data)).getD []).takeWhile (· ≠ ':') := by
  obtain ⟨h1, h2⟩ := C9_hostname_policy
  exact ⟨h1 nek.initRequest, h2 rawHost _ (by decide)⟩

/-- C10: duplicate request headers keep the first value, because the commit
into the header map (`unordered_map::insert` in the state-machine variant,
`emplace` in `main.cpp`) never overwrites an existing key: in general any
insert of an already-bound key leaves the bound value unchanged, and
end-to-end, two header lines normalizing to the same name (`X-A`/`x-a` in
the state machine, two literal `A` lines in `main.cpp`) keep the first
line's value. -/
theorem C10_duplicate_headers_keep_first :
    (∀ (m : List (Str × Str)) (k v v0 : Str), assocLookup m k = some v0 →
        assocLookup (assocInsert m (k, v)) k = some v0)
  ∧ (nek.parse_and_build nek.initRequest
        (("GET / HTTP/1.1\r\nX-A: 1\r\nx-a: 2\r\n\r\n").data)).headers
      = [((("x-a").data), ("1").data)]
  ∧ ((nekMain.parse (("GET / HTTP/1.1\r\nA: 1\r\nA: 2\r\n\r\n").data)).map
        (fun r => assocLookup r.headers (("A").data)))
      = some (some (("1").data)) :=
  ⟨assocInsert_keeps_first, by decide, by decide⟩

/-- Witness for C10: inserting a second value for an already-bound key
leaves the first value in place. -/
theorem C10_duplicate_headers_keep_first_witness :
    assocLookup (assocInsert [((("a").data), ("1").data)]
        ((("a").data), ("2").data)) (("a").data)
      = some (("1").data) :=
  C10_duplicate_headers_keep_first.1 [((("a").data), ("1").data)]
    (("a").data) (("2").data) (("1").data) (by decide)
